import Mathlib

/-!
Shallow embedding of the ProShot-Converter client (src/App.tsx,
src/services/geminiService.ts, src/types.ts): the job record store, the
queue controller, the preference aggregator and the directive compiler,
together with theorems about the spec's claims.

Modelling conventions:
* TS string-union types become Lean inductives.
* JS numbers occurring here are non-negative integers (slider values
  0..100, angles 0..360, HTTP statuses, timestamps); they are modelled
  as `Nat`.
* Optional TS fields (`field?:`) become `Option`.
* The JS expression `x || d` on an optional number is `jsOrNat` (both
  `undefined` and `0` are falsy); on an optional enum it is `Option.getD`
  (no enum value is falsy).  A parameter default `(p = d)` applies on
  `undefined` only, which is also `Option.getD`.
* Job ids are produced by `Date.now().toString() + Math.random()...`;
  the model replaces this fresh-string generator by a counter `nextId`,
  so ids are `Nat` and freshness is structural.
-/

namespace ProShot

/-- `ShadowIntensity` from src/types.ts. -/
inductive ShadowIntensity where
  | soft
  | hard
  | long
deriving DecidableEq, Repr

/-- `MaterialType` from src/types.ts. -/
inductive MaterialType where
  | standard
  | metal
  | texture
  | stone
  | patina
  | silver
  | ammonia
deriving DecidableEq, Repr

/-- `AspectRatio` from src/types.ts (`1:1 | 16:9 | 4:3 | 9:16 | 3:4`). -/
inductive AspectRatio where
  | r1x1
  | r16x9
  | r4x3
  | r9x16
  | r3x4
deriving DecidableEq, Repr

/-- `PatinaVariation` from src/types.ts. -/
inductive PatinaVariation where
  | subtle
  | standard
  | extreme
deriving DecidableEq, Repr

/-- The `status` field of `HistoryItem` in src/types.ts. -/
inductive Status where
  | queued
  | generating
  | completed
  | failed
deriving DecidableEq, Repr

/-- JS `x || d` for an optional non-negative number: `undefined` and `0`
are falsy. -/
def jsOrNat : Option Nat → Nat → Nat
  | none, d => d
  | some 0, d => d
  | some (n + 1), _ => n + 1

/-- JS truthiness of an optional boolean field. -/
def jsTruthy : Option Bool → Bool
  | none => false
  | some b => b

/-- JS `s.includes(pat)`: substring containment on the character lists. -/
def jsIncludes (s pat : String) : Bool :=
  decide (List.IsInfix pat.data s.data)

/-- JS `s.startsWith(pat)` on the character lists. -/
def jsStartsWith (s pat : String) : Bool :=
  List.isPrefixOf pat.data s.data

/-- JS `Math.round(num / den)` for non-negative `num` and positive `den`
(halves round up). -/
def jsRound (num den : Nat) : Nat :=
  (2 * num + den) / (2 * den)

/-- `HistoryItem` from src/types.ts. -/
structure HistoryItem where
  id : Nat
  originalImage : String
  generatedImage : String
  timestamp : Nat
  status : Status
  base64Data : Option String
  mimeType : Option String
  originalFilename : Option String
  materialType : Option MaterialType
  textureIntensity : Option Nat
  patinaIntensity : Option Nat
  patinaVariation : Option PatinaVariation
  shadowAngle : Option Nat
  shadowIntensity : Option ShadowIntensity
  backgroundDistance : Option Nat
  aspectRatio : Option AspectRatio
  enhancedLighting : Option Bool
  rating : Option Nat
deriving DecidableEq, Repr

/-- The rating record persisted by `handleRate` (src/App.tsx lines
357-371): job id, rating value, timestamp, and the full configuration
snapshot copied from the rated item. -/
structure RatingRecord where
  id : Nat
  rating : Nat
  timestamp : Nat
  materialType : Option MaterialType
  shadowIntensity : Option ShadowIntensity
  shadowAngle : Option Nat
  backgroundDistance : Option Nat
  enhancedLighting : Option Bool
  textureIntensity : Option Nat
  patinaIntensity : Option Nat
  patinaVariation : Option PatinaVariation
  aspectRatio : Option AspectRatio
deriving DecidableEq, Repr

/-- The global settings state of the `App` component (src/App.tsx lines
30-39). -/
structure Settings where
  materialType : MaterialType
  textureIntensity : Nat
  patinaIntensity : Nat
  isPatinaEnabled : Bool
  patinaVariation : PatinaVariation
  shadowAngle : Nat
  shadowIntensity : ShadowIntensity
  backgroundDistance : Nat
  aspectRatio : AspectRatio
  enhancedLighting : Bool
deriving DecidableEq, Repr

/-- Initial values of the settings `useState` hooks (src/App.tsx lines
30-39). -/
def defaultSettings : Settings where
  materialType := .standard
  textureIntensity := 50
  patinaIntensity := 0
  isPatinaEnabled := false
  patinaVariation := .standard
  shadowAngle := 135
  shadowIntensity := .soft
  backgroundDistance := 0
  aspectRatio := .r1x1
  enhancedLighting := true

/-! Directive compiler: src/services/geminiService.ts. -/

/-- `getShadowInstructions` (src/services/geminiService.ts lines 5-68).
The light-source angle opposes the shadow angle; the shadow-physics
branch is keyed by intensity and the enhanced-lighting flag; the spatial
clause distinguishes grounded (`distance <= 5`) from elevated. -/
def getShadowInstructions (angle : Nat) (intensity : ShadowIntensity)
    (distance : Nat) (enhancedLighting : Bool) : String :=
  let lightSourceAngle := (angle + 180) % 360
  let distanceEffect :=
    if distance > 0 then
      " Due to elevation, the shadow edges must soften significantly as they move away from the object (Inverse Square Law)."
    else ""
  let shadowPhysics :=
    if enhancedLighting then
      match intensity with
      | .soft =>
        "**PHYSICS: LARGE SOFTBOX (DIFFUSED)**. \n" ++
        "        1. **Light Wrap**: The light source is physically large. It MUST wrap around the object's form. **CRITICAL**: Simulate a subtle light wrap effect where the PURE WHITE BACKGROUND reflects light back onto the object's lower edges.\n" ++
        "        2. **Gradient**: The cast shadow must have a smooth, feathered gradient from the core to the edge. NO hard outlines.\n" ++
        "        3. **Bounce**: The white floor bounces light back up, filling in the deepest shadows on the object itself (High Radiosity)." ++ distanceEffect
      | .hard =>
        "**PHYSICS: FRESNEL SPOT (DIRECT)**. \n" ++
        "        1. **Definition**: High-contrast, well-defined shadow shape.\n" ++
        "        2. **Penumbra Accuracy**: Create a physically accurate **PENUMBRA**. The shadow must be razor-sharp at the contact point (if grounded) but blur progressively (Hardness gradient) as it moves away from the object. The transition from Umbra (dark core) to Penumbra (soft edge) must be distinct." ++ distanceEffect
      | .long =>
        "**PHYSICS: LOW ANGLE (DRAMATIC)**. \n" ++
        "        1. **Elongation**: Shadow length > 2x Object height. \n" ++
        "        2. **Falloff**: Shadow density decreases linearly with distance from the object." ++ distanceEffect
    else
      match intensity with
      | .soft => "Diffused, soft, and feathered." ++ distanceEffect
      | .hard => "Sharp, crisp, and high-contrast." ++ distanceEffect
      | .long => "Elongated and dramatic." ++ distanceEffect
  let spatialInstruction :=
    if distance ≤ 5 then
      "**STATUS: GROUNDED**. The object is physically touching the white surface. **CRITICAL:** Generate deep, dark **Ambient Occlusion (Contact Shadows)** exactly where the object meets the floor to ground it."
    else
      let heightDescU := if distance < 30 then "HOVERING" else "FLOATING"
      "**STATUS: " ++ heightDescU ++ "** (Distance: " ++ toString distance ++
      "%). The cast shadow is **DETACHED** from the object. The vertical offset distance indicates the height."
  let lightingEngine :=
    if enhancedLighting then
      "\n      - **ADVANCED LIGHT TRANSPORT**: \n" ++
      "        1. **White Bounce**: The pure white background (#FFFFFF) acts as a reflector. Project subtle cool-white fill light into the object's shadow areas.\n" ++
      "        2. **Specular Physics**: Highlights must follow the curvature of the object (Fresnel effect).\n" ++
      "      "
    else
      "- **STANDARD LIGHTING**: Simple ambient fill."
  "\n   [LIGHTING & SHADOW SIMULATION]\n" ++
  "   - MAIN LIGHT SOURCE ANGLE: " ++ toString lightSourceAngle ++ "°\n" ++
  "   - CAST SHADOW ANGLE: " ++ toString angle ++ "°\n" ++
  "   - SHADOW PROFILE: " ++ shadowPhysics ++ "\n" ++
  "   - SPATIAL RELATION: " ++ spatialInstruction ++ "\n" ++
  "   " ++ lightingEngine ++ "\n  "

/-- `getMaterialInstructions` (src/services/geminiService.ts lines
70-214): a directive block per material type, with intensity- and
variation-dependent sub-clauses. -/
def getMaterialInstructions (type : MaterialType) (textureIntensity : Nat)
    (patinaIntensity : Nat) (patinaVariation : PatinaVariation) : String :=
  match type with
  | .ammonia =>
    let ammoniaVar :=
      match patinaVariation with
      | .subtle => "**LIGHT FUMING**: Delicate, wispy rainbow interference colors (Pink/Blue/Gold) on raw metal."
      | .standard => "**CLASSIC SALT & FUME**: Deep Cobalt Blue and Turquoise crystallization mixed with Magenta/Purple transitions. Natural bloom pattern."
      | .extreme => "**HEAVY SATURATION**: Intense, psychedelic color shifting. Neon Blues, Vibrant Purples, and sharp salt crusts covering most of the surface."
    "\n      **[MATERIAL PIPELINE: AMMONIA VAPOR PATINA]**\n" ++
    "      - **Target Surfaces**: Copper, Brass, Bronze exposed to Ammonia/Salt fuming.\n" ++
    "      - **Intensity**: " ++ toString patinaIntensity ++ "% Coverage.\n" ++
    "      - **Physics Simulation**:\n" ++
    "         1. **Fuming Process**: Render the patina as a result of chemical vapor interaction. It should appear organic, blooming, and crystalline.\n" ++
    "         2. **Color Palette**: Focus on **IRIDESCENT RAINBOW** spectrum: Deep Blues, Teals, Magentas, Purples, and Golds.\n" ++
    "         3. **Texture**: Mix of smooth iridescent stains (thin film interference) and rough, matte salt crystals (thick accumulation).\n" ++
    "      - **Variation Mode**: " ++ ammoniaVar ++ "\n" ++
    "      - **Interaction**: High specular iridescence in thin areas, matte/diffuse in heavy blue/crystalline areas.\n" ++
    "      "
  | .patina =>
    let variationDesc :=
      match patinaVariation with
      | .subtle => "**UNIFORM OXIDATION**: A consistent layer of dull green/brown oxide. Very little raw metal showing."
      | .standard => "**REALISTIC WEATHERING**: A complex mix of Turquoise Verdigris, Malachite Green, and Dark Bronze. The oxidation should accumulate physically in crevices."
      | .extreme => "**ANCIENT ARTIFACT**: Heavy incrustation. Vibrant Azurite Blues and deep Emerald Greens. High-contrast transitions. Patina appears thick and crusty."
    "\n      **[MATERIAL PIPELINE: AGED PATINA & OXIDATION]**\n" ++
    "      - **Target Surfaces**: Ancient Bronze, Weathered Copper, Aged Brass.\n" ++
    "      - **Intensity**: " ++ toString patinaIntensity ++ "% Coverage.\n" ++
    "      - **Texture Engine**:\n" ++
    "         1. **Layering**: Render the patina as a PHYSICAL layer sitting ON TOP of the metal, not just a color change. It must look chalky, matte, and dry.\n" ++
    "         2. **Color Palette**: Focus on **Blue/Green/Teal** spectrum (Verdigris/Malachite) for copper alloys.\n" ++
    "         3. **Iridescence**: **CRITICAL**. At the transition zones where the patina thins out to reveal raw metal, render **oil-slick iridescence** (Subtle purple/gold heat stains).\n" ++
    "      - **Variation Mode**: " ++ variationDesc ++ "\n" ++
    "      - **Roughness**: High roughness (Matte) for oxidized areas, Low roughness (Shiny) for exposed metal ridges.\n" ++
    "      "
  | .metal =>
    let patinaDesc :=
      if patinaIntensity > 0 then
        let depth :=
          if patinaIntensity < 30 then "SURFACE DUSTING"
          else if patinaIntensity < 70 then "HEAVY OXIDATION"
          else "ANCIENT CRUST"
        let varInstruction :=
          match patinaVariation with
          | .subtle => "Monochrome oxidation (Uniform Green or Brown). Low color noise."
          | .standard => "Natural variation. Mix of Turquoise, Malachite Green, and Deep Bronze."
          | .extreme => "**CHAOTIC IRIDESCENCE**. High-frequency color shifting. Deep Blues, Vibrant Greens, and Oil-slick Purples mixed with raw metal."
        "\n          - **PATINA ENGINE (" ++ depth ++ " - " ++ toString patinaIntensity ++ "%)**:\n" ++
        "             1. **Coverage**: Apply " ++ toString patinaIntensity ++ "% coverage of oxidation effects, primarily in crevices and textured areas.\n" ++
        "             2. **Palette**: " ++ varInstruction ++ "\n" ++
        "             3. **Micro-Texture**: The patina must appear physically raised/layered on top of the metal. It should have a matte, chalky finish contrasting with the shiny raw metal.\n" ++
        "             4. **Iridescence**: If copper/bronze, specifically simulate heat-treatment interference colors (rainbow effect) at the transition zones between raw metal and oxidation.\n" ++
        "          "
      else
        "- **PATINA**: None. Show pristine, factory-new metal."
    "\n      **[MATERIAL PIPELINE: ADVANCED METALLURGY]**\n" ++
    "      - **Target Surfaces**: Copper, Brass, Bronze, Gold, Anodized Aluminum.\n" ++
    "      - **Surface Finishes**: \n" ++
    "         1. **Brushed**: Render distinct, directional micro-scratches (anisotropic).\n" ++
    "         2. **Polished**: Render high-contrast mirror-like reflections with high Index of Refraction (IOR).\n" ++
    "         3. **Anodized**: Render a matte metallic sheen with deep color saturation and uniform diffusion.\n" ++
    "      " ++ patinaDesc ++ "\n" ++
    "      - **Interaction**: The surface must appear cold. Specular highlights should be sharp (low roughness) for polished areas and spread out/diffused for oxidized areas.\n" ++
    "      "
  | .silver =>
    let tarnishDesc :=
      if patinaIntensity > 0 then
        let tarnishDepth :=
          if patinaIntensity < 30 then "LIGHT TARNISH"
          else if patinaIntensity < 70 then "VINTAGE AGING"
          else "ANTIQUE BLACKENING"
        let tarnishVar :=
          match patinaVariation with
          | .subtle => "Champagne/Yellowish tinting on highlights. Soft Grey in shadows."
          | .standard => "**CLASSIC ANTIQUE**. Deep Grey/Black accumulation in crevices (Ag2S). Bright Silver on raised areas. High Contrast."
          | .extreme => "**HEAVY SULFURIZATION**. Matte Black crust covering 80% of surface. Raw silver only visible on sharpest edges."
        "\n          - **TARNISH ENGINE (" ++ tarnishDepth ++ " - " ++ toString patinaIntensity ++ "%)**:\n" ++
        "             1. **Coverage**: Apply " ++ toString patinaIntensity ++ "% coverage of Silver Sulfide tarnish.\n" ++
        "             2. **Palette**: Neutral Greys, Blacks, and subtle Yellow/Blue interference colors. **NO GREEN/VERDIGRIS**.\n" ++
        "             3. **Physics**: Tarnish accumulates deeply in recesses (Intaglio). Raised surfaces must remain bright due to 'handling/polishing'.\n" ++
        "             4. **Variation**: " ++ tarnishVar ++ "\n" ++
        "          "
      else
        "- **PURITY**: 99.9% Fine Silver / Sterling. Ultra-bright, white-hot specular highlights."
    "\n      **[MATERIAL PIPELINE: PRECIOUS SILVER]**\n" ++
    "      - **Target Surfaces**: Sterling Silver (925), Fine Silver (999), Platinum, White Gold, Chrome.\n" ++
    "      - **Tone**: **NEUTRAL COOL WHITE**. Strictly remove any yellow/gold/copper casts unless specified by tarnish settings.\n" ++
    "      - **Reflectivity**: MAXIMUM. Silver has the highest reflectivity of all metals.\n" ++
    "      - **Surface Finishes**: \n" ++
    "         1. **High Polish**: Mirror finish. Reflections must be white.\n" ++
    "         2. **Satin/Matte**: Frosted silver texture, soft white diffusion.\n" ++
    "      " ++ tarnishDesc ++ "\n" ++
    "      - **Interaction**: Crisp, white specular highlights. Deep, neutral dark reflections.\n" ++
    "      "
  | .stone =>
    "\n      **[MATERIAL PIPELINE: GEMSTONE & MINERALS]**\n" ++
    "      - **Target Surfaces**: Quartz, Sandstone, Marble, Agate, Labradorite, Azurite, Granite.\n" ++
    "      - **Texture Enhancement**:\n" ++
    "         1. **Crystalline (Quartz/Amethyst)**: Emphasize **Subsurface Scattering (SSS)**. The edges should appear semi-translucent. Enhance internal fractures and facets.\n" ++
    "         2. **Sedimentary (Sandstone)**: Maximize **Granular Detail**. The surface should look rough, porous, and matte with high micro-shadowing.\n" ++
    "         3. **Metamorphic (Marble/Agate)**: Sharpen the **Veining**. Ensure the polish looks glassy (high gloss) while the veins have depth.\n" ++
    "         4. **Iridescent (Labradorite/Opal)**: **CRITICAL**: Enhance the **Labradorescence/Play-of-Color**. Boost the visibility of the internal blue/gold/green flashes.\n" ++
    "      - **Interaction**: Distinct separation between matte raw stone and polished faces.\n" ++
    "      "
  | .texture =>
    let intensityDesc :=
      if textureIntensity < 30 then "SUBTLE: Smooth finish, fine grain, delicate weave."
      else if textureIntensity < 70 then "NATURAL: Visible tactile details, standard roughness."
      else "INTENSE: Deep displacement, rough surface, pronounced grain/weave, high micro-contrast."
    "\n      **[MATERIAL PIPELINE: HIGH-FIDELITY ORGANIC & TEXTURE]**\n" ++
    "      - **Intensity Level**: " ++ toString textureIntensity ++ "/100 (" ++ intensityDesc ++ ")\n" ++
    "      - **Target Surfaces**: Wood, Fabric, Leather, Glass.\n" ++
    "      - **Wood**: enhance grain contrast and pore detail according to intensity.\n" ++
    "      - **Fabric/Leather**: render visible weave/stitch patterns and micro-fiber texture.\n" ++
    "      - **Glass/Transparent**: Maximize transmission and refraction. Render internal caustics if applicable. Clear, sharp edges.\n" ++
    "      - **Interaction**: The surface must invite \"touch\". Focus on micro-displacement mapping effects matching the requested intensity.\n" ++
    "      "
  | .standard =>
    "\n      **[MATERIAL PIPELINE: STANDARD PRODUCT]**\n" ++
    "      - Accurately identify materials (Plastic, Ceramic, Electronics, Packaging).\n" ++
    "      - Apply Physically Based Rendering (PBR) standards: correct roughness, metallicity, and diffuse values.\n" ++
    "      - If plastic: Add subtle Subsurface Scattering (SSS) on thin edges.\n" ++
    "      "

/-- `getSystemPrompt` (src/services/geminiService.ts lines 216-263): the
composite request text, assembling fixed boilerplate, the adaptive
memory block (fallback text when the memory context is the empty
string), the lighting block and the material block. -/
def getSystemPrompt (materialType : MaterialType) (shadowAngle : Nat)
    (shadowIntensity : ShadowIntensity) (backgroundDistance : Nat)
    (enhancedLighting : Bool) (textureIntensity : Nat) (patinaIntensity : Nat)
    (patinaVariation : PatinaVariation) (memoryContext : String) : String :=
  let memoryBlock :=
    if memoryContext = "" then
      "No previous learning data available. Use standard best practices."
    else memoryContext
  "\n### SYSTEM ROLE\n" ++
  "You are a specialized AI Imaging Engine (Nano Banana 2 / Gemini 3 Pro) for Commercial Product Photography.\n" ++
  "Your goal: **TRANSFIGURE** raw input photos into **Production-Ready Advertisement Assets**.\n" ++
  "\n### MANDATORY PRE-PROCESSING (CLEANUP)\n" ++
  "**CRITICAL:** Before generating the new image, you must strictly perform:\n" ++
  "1. **DELETE** all original cast shadows from the source image.\n" ++
  "2. **ERASE** any black outlines, strokes, or \"cutout artifacts\" surrounding the object.\n" ++
  "3. The object must be perfectly isolated before being placed into the new lighting environment.\n" ++
  "\n### OUTPUT PARAMETERS\n" ++
  "1. **Camera**: Hasselblad X2D 100C + 90mm Macro Lens.\n" ++
  "2. **Settings**: f/8 Aperture (Deep depth of field, razor sharp), ISO 50, 1/200s.\n" ++
  "3. **Background**: PURE WHITE (#FFFFFF) Studio Cyclorama. Zero texture.\n" ++
  "4. **Viewpoint**: Top-Down (Flat Lay).\n" ++
  "\n### ADAPTIVE LEARNING (USER MEMORY)\n" ++
  memoryBlock ++ "\n" ++
  "\n### LIGHTING SIMULATION\n" ++
  getShadowInstructions shadowAngle shadowIntensity backgroundDistance enhancedLighting ++ "\n" ++
  "\n### MATERIAL & TEXTURE ENHANCEMENT\n" ++
  getMaterialInstructions materialType textureIntensity patinaIntensity patinaVariation ++ "\n" ++
  "\n### EXECUTION PROTOCOL\n" ++
  "1. **Clean**: Remove artifacts, outlines, and old shadows.\n" ++
  "2. **Relight**: Apply the calculated directional lighting and shadow casting.\n" ++
  "3. **Enhance**: Apply the specific material pipeline (Metal/Stone/Texture/Standard/Ammonia) with requested intensity.\n" ++
  "4. **Refine**: Sharpen textures, boost contrast, and ensure color accuracy.\n" ++
  "\n### NEGATIVE CONSTRAINTS\n" ++
  "- NO original background bleeding.\n" ++
  "- NO cartoonish black outlines.\n" ++
  "- NO modifying the product's actual shape or logo text.\n" ++
  "- NO artifacts in the white background.\n"

/-- The inputs of the directive compiler: the per-job configuration
snapshot plus the compiled preference-profile context string (the spec's
`compile(config, preferenceProfile)`). -/
structure CompileInput where
  materialType : MaterialType
  shadowAngle : Nat
  shadowIntensity : ShadowIntensity
  backgroundDistance : Nat
  enhancedLighting : Bool
  textureIntensity : Nat
  patinaIntensity : Nat
  patinaVariation : PatinaVariation
  memoryContext : String
deriving DecidableEq, Repr

/-- The request payload handed to the external generation collaborator by
`generateProPhoto` (src/services/geminiService.ts lines 288-309): the
compiled prompt text, the inline image part, and the image config. -/
structure RequestPayload where
  promptText : String
  imageData : String
  imageMime : String
  imageSize : String
  aspectRatio : AspectRatio
deriving DecidableEq, Repr

/-- The directive compiler as one function of its bundled inputs. -/
def compile (c : CompileInput) : String :=
  getSystemPrompt c.materialType c.shadowAngle c.shadowIntensity
    c.backgroundDistance c.enhancedLighting c.textureIntensity
    c.patinaIntensity c.patinaVariation c.memoryContext

/-- The payload built by `generateProPhoto` (src/services/geminiService.ts
lines 265-309) from its arguments, before the external call. -/
def buildRequest (base64Image mimeType : String) (materialType : MaterialType)
    (shadowAngle : Nat) (shadowIntensity : ShadowIntensity)
    (backgroundDistance : Nat) (aspectRatio : AspectRatio)
    (enhancedLighting : Bool) (textureIntensity : Nat) (patinaIntensity : Nat)
    (patinaVariation : PatinaVariation) (memoryContext : String) : RequestPayload where
  promptText := getSystemPrompt materialType shadowAngle shadowIntensity
    backgroundDistance enhancedLighting textureIntensity patinaIntensity
    patinaVariation memoryContext
  imageData := base64Image
  imageMime := mimeType
  imageSize := "2K"
  aspectRatio := aspectRatio

/-- The arguments `processQueueItem` passes to `generateProPhoto`
(src/App.tsx lines 162-175), resolved through the JS `||` fallbacks at
the call site and the parameter defaults of `generateProPhoto` itself
(which apply to `undefined` arguments). -/
def dispatchRequest (item : HistoryItem) (memoryContext : String) : RequestPayload :=
  buildRequest (item.base64Data.getD "") (item.mimeType.getD "")
    (item.materialType.getD .standard)
    (item.shadowAngle.getD 135)
    (item.shadowIntensity.getD .soft)
    (item.backgroundDistance.getD 0)
    (item.aspectRatio.getD .r1x1)
    (item.enhancedLighting.getD false)
    (jsOrNat item.textureIntensity 50)
    (jsOrNat item.patinaIntensity 0)
    (item.patinaVariation.getD .standard)
    memoryContext

/-! Error classification at the queue-controller boundary
(src/App.tsx lines 184-204). -/

/-- An error thrown by the external generation call: its `message` and
optional numeric `status`. -/
structure ErrInfo where
  message : String
  status : Option Nat
deriving DecidableEq, Repr

/-- `err.message?.includes("429") || err.message?.includes("quota") ||
err.status === 429` (src/App.tsx line 187). -/
def isRateLimitErr (e : ErrInfo) : Bool :=
  jsIncludes e.message "429" || jsIncludes e.message "quota" || e.status == some 429

/-- `err.message.includes("Requested entity was not found")`
(src/App.tsx line 195). -/
def isAuthErr (e : ErrInfo) : Bool :=
  jsIncludes e.message "Requested entity was not found"

/-- The error classes of the catch block: the auth check runs first, the
rate-limit check second, everything else is generic. -/
inductive ErrClass where
  | authExpired
  | rateLimited
  | generic
deriving DecidableEq, Repr

/-- Classification at the controller boundary, in the branch order of the
catch block (src/App.tsx lines 195-204). -/
def classify (e : ErrInfo) : ErrClass :=
  if isAuthErr e then .authExpired
  else if isRateLimitErr e then .rateLimited
  else .generic

/-! The App component state and the store operations (src/App.tsx). -/

/-- `MAX_QUEUE_SIZE` (src/App.tsx line 8). -/
def MAX_QUEUE_SIZE : Nat := 30

/-- The App state observed by the queue controller: the job record store
(`history`), the single-flight marker (`processingId`), the run flag,
the credential flag, the banner message, the global settings, and the
persisted rating log.  `nextId` models the fresh-id generator. -/
structure AppState where
  hasKey : Bool
  history : List HistoryItem
  processingId : Option Nat
  errorMsg : Option String
  isQueueRunning : Bool
  settings : Settings
  ratingsLog : List RatingRecord
  nextId : Nat
deriving DecidableEq, Repr

/-- The initial component state (src/App.tsx lines 16-39): no key, empty
store, nothing in flight, queue paused, default settings, empty log. -/
def initialState : AppState where
  hasKey := false
  history := []
  processingId := none
  errorMsg := none
  isQueueRunning := false
  settings := defaultSettings
  ratingsLog := []
  nextId := 0

/-- A file offered by the file-input collaborator: name, declared media
type, size in bytes, and the two encodings produced by `fileToDataUri`
and `fileToBase64`. -/
structure UploadFile where
  name : String
  mimeType : String
  size : Nat
  dataUri : String
  base64 : String
deriving DecidableEq, Repr

/-- The validity filter of `processUploadedFiles` (src/App.tsx lines
226-230): image media type and at most 10 MB. -/
def isValidFile (f : UploadFile) : Bool :=
  if ! jsStartsWith f.mimeType "image/" then false
  else if f.size > 10 * 1024 * 1024 then false
  else true

/-- `history.filter(i => i.status === 'queued' || i.status ===
'generating').length` (src/App.tsx line 237). -/
def activeCount (h : List HistoryItem) : Nat :=
  (h.filter fun i => i.status == Status.queued || i.status == Status.generating).length

/-- The error banner for an invalid-only selection (src/App.tsx line 233). -/
def noValidImagesMsg : String :=
  "No valid images selected (Max 10MB, JPG/PNG/WEBP)."

/-- The capacity error banner (src/App.tsx line 239); the remaining-slot
count is a JS number and may print negative. -/
def capacityMsg (currentActiveCount : Nat) : String :=
  "Queue limit reached (" ++ toString MAX_QUEUE_SIZE ++ "). You can only add " ++
  toString ((MAX_QUEUE_SIZE : Int) - (currentActiveCount : Int)) ++ " more images."

/-- One new queued item (src/App.tsx lines 250-269): fresh id, display
URI, empty result, queued status, raw data, and a snapshot of the
current settings (patina intensity gated by the enable toggle). -/
def mkQueuedItem (s : Settings) (id now : Nat) (f : UploadFile) : HistoryItem where
  id := id
  originalImage := f.dataUri
  generatedImage := ""
  timestamp := now
  status := .queued
  base64Data := some f.base64
  mimeType := some f.mimeType
  originalFilename := some f.name
  materialType := some s.materialType
  textureIntensity := some s.textureIntensity
  patinaIntensity := some (if s.isPatinaEnabled then s.patinaIntensity else 0)
  patinaVariation := some s.patinaVariation
  shadowAngle := some s.shadowAngle
  shadowIntensity := some s.shadowIntensity
  backgroundDistance := some s.backgroundDistance
  aspectRatio := some s.aspectRatio
  enhancedLighting := some s.enhancedLighting
  rating := none

/-- The batch of new items built from the valid files, with consecutive
fresh ids (the model of `Date.now().toString() + Math.random()...`). -/
def buildItems (s : Settings) (now startId : Nat) : List UploadFile → List HistoryItem
  | [] => []
  | f :: fs => mkQueuedItem s startId now f :: buildItems s now (startId + 1) fs

/-- `processUploadedFiles` (src/App.tsx lines 223-276): clear the banner,
filter to valid files, reject an invalid-only selection, reject the
batch on the capacity ceiling, otherwise prepend the new queued items. -/
def processUploadedFiles (st : AppState) (files : List UploadFile) (now : Nat) : AppState :=
  let st0 := { st with errorMsg := none }
  let validFiles := files.filter isValidFile
  if validFiles.length == 0 then
    { st0 with errorMsg := some noValidImagesMsg }
  else
    let currentActiveCount := activeCount st0.history
    if currentActiveCount + validFiles.length > MAX_QUEUE_SIZE then
      { st0 with errorMsg := some (capacityMsg currentActiveCount) }
    else
      { st0 with
          history := buildItems st0.settings now st0.nextId validFiles ++ st0.history
          nextId := st0.nextId + validFiles.length }

/-- Update every item carrying the given id (the `history.map(i => i.id
=== id ? ... : i)` pattern used throughout src/App.tsx). -/
def markById (h : List HistoryItem) (id : Nat) (f : HistoryItem → HistoryItem) :
    List HistoryItem :=
  h.map fun i => if i.id == id then f i else i

/-- `history.find(item => item.status === 'queued')` (src/App.tsx line 91). -/
def findQueued (h : List HistoryItem) : Option HistoryItem :=
  h.find? fun i => i.status == Status.queued

/-- The queue-scan effect (src/App.tsx lines 84-99) together with the
opening of `processQueueItem` (lines 148-149): when the queue runs and
nothing is in flight, the first queued item in store order is taken in
flight (single-flight marker set, status switched to `generating`);
with no queued item the run flag is dropped. -/
def scanStep (st : AppState) : AppState :=
  if ! st.isQueueRunning then st
  else if st.processingId.isSome then st
  else
    match findQueued st.history with
    | some item =>
        { st with
            processingId := some item.id
            history := markById st.history item.id fun i => { i with status := .generating } }
    | none => { st with isQueueRunning := false }

/-- The result of the external generation call. -/
structure GenResult where
  imageData : String
  mimeType : String
deriving DecidableEq, Repr

/-- The success path of `processQueueItem` (src/App.tsx lines 176-182 and
the `finally`): result attached as a data URI, status `completed`, raw
bytes purged, single-flight marker released. -/
def finishSuccess (st : AppState) (id : Nat) (r : GenResult) : AppState :=
  { st with
      history := markById st.history id fun i =>
        { i with
            generatedImage := "data:" ++ r.mimeType ++ ";base64," ++ r.imageData
            status := .completed
            base64Data := none }
      processingId := none }

/-- The failure path of `processQueueItem` (src/App.tsx lines 184-208 and
the `finally`): the job is marked `failed` and purged, then the error is
classified; an auth error clears the credential flag, surfaces a banner
and pauses the queue; a rate-limit error holds the single-flight lock
through an extra 10000 ms delay before the `finally` releases it.  The
second component is that extra hold time in milliseconds. -/
def finishFailure (st : AppState) (id : Nat) (e : ErrInfo) : AppState × Nat :=
  let failed := { st with
    history := markById st.history id fun i =>
      { i with status := .failed, base64Data := none } }
  if isAuthErr e then
    ({ failed with
        hasKey := false
        errorMsg := some "API Key session expired. Please select your key again."
        isQueueRunning := false
        processingId := none }, 0)
  else if isRateLimitErr e then
    ({ failed with processingId := none }, 10000)
  else
    ({ failed with processingId := none }, 0)

/-- `parts[1]` of `originalImage.split(',')` (src/App.tsx lines 317-319):
the base64 payload of a data URI, absent when there is no comma. -/
def uriPayload (uri : String) : Option String :=
  (uri.splitOn ",").get? 1

/-- `parts[0]` of `originalImage.split(',')`: the data-URI metadata. -/
def uriMeta (uri : String) : String :=
  (uri.splitOn ",").headD ""

/-- The regex `/:(.*?);/` applied to the metadata (src/App.tsx lines
322-325): the text between the first colon and the first semicolon after
it, when both exist. -/
def jsMimeMatch (meta : String) : Option String :=
  match meta.splitOn ":" with
  | [] => none
  | [_] => none
  | _ :: rest =>
    match (String.intercalate ":" rest).splitOn ";" with
    | [] => none
    | [_] => none
    | g :: _ => some g

/-- The resubmitted item built by `handleRegenerate` (src/App.tsx lines
313-345): back to `queued`, result cleared, image data reconstructed
from the preview data URI, and the configuration re-stamped from the
current global settings. -/
def regenItem (s : Settings) (now : Nat) (item : HistoryItem) : HistoryItem :=
  let mimeType := (jsMimeMatch (uriMeta item.originalImage)).getD "image/png"
  { item with
      status := .queued
      generatedImage := ""
      base64Data := uriPayload item.originalImage
      mimeType := some mimeType
      materialType := some s.materialType
      textureIntensity := some s.textureIntensity
      patinaIntensity := some (if s.isPatinaEnabled then s.patinaIntensity else 0)
      patinaVariation := some s.patinaVariation
      shadowAngle := some s.shadowAngle
      shadowIntensity := some s.shadowIntensity
      backgroundDistance := some s.backgroundDistance
      aspectRatio := some s.aspectRatio
      enhancedLighting := some s.enhancedLighting
      timestamp := now }

/-- `handleRegenerate` (src/App.tsx lines 312-346). -/
def handleRegenerate (st : AppState) (id now : Nat) : AppState :=
  { st with history := st.history.map fun item =>
      if item.id == id then regenItem st.settings now item else item }

/-- The rating record written by `handleRate` (src/App.tsx lines 357-371). -/
def mkRatingRecord (item : HistoryItem) (rating now : Nat) : RatingRecord where
  id := item.id
  rating := rating
  timestamp := now
  materialType := item.materialType
  shadowIntensity := item.shadowIntensity
  shadowAngle := item.shadowAngle
  backgroundDistance := item.backgroundDistance
  enhancedLighting := item.enhancedLighting
  textureIntensity := item.textureIntensity
  patinaIntensity := item.patinaIntensity
  patinaVariation := item.patinaVariation
  aspectRatio := item.aspectRatio

/-- The append-or-replace write into the persisted rating log
(src/App.tsx lines 373-384): an existing record with the same job id is
overwritten in place, otherwise the record is pushed at the end. -/
def upsertRating (log : List RatingRecord) (rec : RatingRecord) : List RatingRecord :=
  match log.findIdx? (fun r => r.id == rec.id) with
  | some i => log.set i rec
  | none => log ++ [rec]

/-- `handleRate` (src/App.tsx lines 348-389): stamp the rating onto the
item and, when the id is found in the store, persist the record into the
rating log. -/
def handleRate (st : AppState) (id rating now : Nat) : AppState :=
  let st1 := { st with history := st.history.map fun i =>
      if i.id == id then { i with rating := some rating } else i }
  match st.history.find? (fun i => i.id == id) with
  | none => st1
  | some item => { st1 with ratingsLog := upsertRating st.ratingsLog (mkRatingRecord item rating now) }

/-- `handleClearHistory` (src/App.tsx lines 391-394). -/
def handleClearHistory (st : AppState) : AppState :=
  { st with history := [], isQueueRunning := false }

/-! Preference aggregator: `getAiMemoryContext` (src/App.tsx lines
102-145). -/

/-- The loop state of the `getMode` helper (src/App.tsx lines 112-126):
the per-value counts, the running maximal count, and the running mode.
The JS code keys the counts by `String(item)`; stringification is
injective on the value sets used here, so the model counts values
directly. -/
structure ModeState (α : Type) where
  counts : α → Nat
  maxCount : Nat
  mode : α

/-- One iteration of the `getMode` loop: bump the count of the current
value and adopt it as mode exactly when its count strictly exceeds the
running maximum. -/
def modeStep [DecidableEq α] (s : ModeState α) (x : α) : ModeState α :=
  let c := s.counts x + 1
  let counts := fun y => if y = x then c else s.counts y
  if s.maxCount < c then ⟨counts, c, x⟩ else ⟨counts, s.maxCount, s.mode⟩

/-- `getMode` (src/App.tsx lines 112-126): `null` on the empty array,
otherwise the fold of `modeStep` started from `mode = arr[0]`,
`maxCount = 0` and empty counts. -/
def getMode [DecidableEq α] : List α → Option α
  | [] => none
  | x :: xs => some (((x :: xs).foldl modeStep ⟨fun _ => 0, 0, x⟩).mode)

/-- `ratings.filter(r => r.rating >= 4)` (src/App.tsx line 107). -/
def positiveExamples (log : List RatingRecord) : List RatingRecord :=
  log.filter fun r => 4 ≤ r.rating

/-- `Math.round((r.shadowAngle || 135) / 45) * 45` (src/App.tsx line 131). -/
def angleBucket (a : Option Nat) : Nat :=
  jsRound (jsOrNat a 135) 45 * 45

/-- JS `count > n / 2` with real division, i.e. a strict majority. -/
def jsMajority (count n : Nat) : Bool :=
  decide (2 * count > n)

/-- The structured content of the preference-profile block interpolated
into the memory string (src/App.tsx lines 128-144).  The categorical
fields hold the `getMode` results (whose elements are the possibly
undefined record fields). -/
structure PreferenceProfile where
  sampleCount : Nat
  preferredShadow : Option (Option ShadowIntensity)
  preferredMaterial : Option (Option MaterialType)
  preferredAngle : Option Nat
  likesEnhanced : Bool
  prefersFloating : Bool
deriving DecidableEq, Repr

/-- `getAiMemoryContext` (src/App.tsx lines 102-145), with the returned
template string abstracted to the data interpolated into it: `none`
models the empty string returned when no high-rated record exists. -/
def computeProfile (log : List RatingRecord) : Option PreferenceProfile :=
  let pos := positiveExamples log
  if pos.length == 0 then none
  else some
    { sampleCount := pos.length
      preferredShadow := getMode (pos.map fun r => r.shadowIntensity)
      preferredMaterial := getMode (pos.map fun r => r.materialType)
      preferredAngle := getMode (pos.map fun r => angleBucket r.shadowAngle)
      likesEnhanced := jsMajority (pos.filter fun r => jsTruthy r.enhancedLighting).length pos.length
      prefersFloating := jsMajority (pos.filter fun r => jsOrNat r.backgroundDistance 0 > 10).length pos.length }

/-- Modelled from the spec: the mode reduction as §4.4 words it, "five
independent mode (most-frequent-value) reductions ... with ties broken
by first-occurrence order in the filtered set".  This is the spec-side
definition used to compare the claimed tie-break against `getMode`. -/
def modeFirstOcc [DecidableEq α] : List α → Option α
  | [] => none
  | x :: xs =>
    some ((x :: xs).foldl
      (fun best y => if (x :: xs).count best < (x :: xs).count y then y else best) x)

/-! The queue controller as a transition system: every user action and
dispatch outcome the spec's scenarios compose. -/

/-- The externally triggered transitions: uploads, ratings,
resubmission, clearing, the run-flag toggles, credential checks,
settings edits, the queue scan, and the two dispatch outcomes. -/
inductive Action where
  | submit (files : List UploadFile) (now : Nat)
  | rate (id rating now : Nat)
  | regenerate (id now : Nat)
  | clearHistory
  | start
  | pause
  | keyCheck (b : Bool)
  | setSettings (s : Settings)
  | scan
  | succeed (r : GenResult)
  | fail (e : ErrInfo)

/-- The effect of one action on the component state.  A dispatch outcome
(`succeed`/`fail`) lands only when a job is in flight: `processQueueItem`
finishes the job whose id it set at start. -/
def applyAction (st : AppState) : Action → AppState
  | .submit files now => processUploadedFiles st files now
  | .rate id rating now => handleRate st id rating now
  | .regenerate id now => handleRegenerate st id now
  | .clearHistory => handleClearHistory st
  | .start => { st with isQueueRunning := true }
  | .pause => { st with isQueueRunning := false }
  | .keyCheck b => { st with hasKey := b }
  | .setSettings s => { st with settings := s }
  | .scan => scanStep st
  | .succeed r =>
      match st.processingId with
      | some id => finishSuccess st id r
      | none => st
  | .fail e =>
      match st.processingId with
      | some id => (finishFailure st id e).1
      | none => st

/-- The states the running component can be in: everything generated
from the initial state by action sequences. -/
inductive Reachable : AppState → Prop where
  | init : Reachable initialState
  | step {st : AppState} (h : Reachable st) (a : Action) : Reachable (applyAction st a)

/-- The number of jobs the store holds in `generating` state. -/
def generatingCount (h : List HistoryItem) : Nat :=
  (h.filter fun i => i.status == Status.generating).length

/-- The inductive invariant the controller maintains on (history,
processingId, nextId): ids are pairwise distinct, every `generating` job
is the one whose id the single-flight marker holds, and every id is
below the id supply. -/
def StoreInv (h : List HistoryItem) (pid : Option Nat) (nid : Nat) : Prop :=
  (h.map HistoryItem.id).Nodup ∧
  (∀ i ∈ h, i.status = .generating → pid = some i.id) ∧
  ∀ i ∈ h, i.id < nid

/-- At most one record per job id in a rating log. -/
def AtMostOnePerId (log : List RatingRecord) : Prop :=
  ∀ x : Nat, ((log.filter fun r => r.id == x).length ≤ 1)

/-! Concrete instances used by the witness and counterexample theorems. -/

/-- A small valid upload. -/
def fileA : UploadFile where
  name := "a.png"
  mimeType := "image/png"
  size := 100
  dataUri := "data:image/png;base64,AAA"
  base64 := "AAA"

/-- A second small valid upload. -/
def fileB : UploadFile where
  name := "b.png"
  mimeType := "image/png"
  size := 100
  dataUri := "data:image/png;base64,BBB"
  base64 := "BBB"

/-- The job created by the first submission (id 0). -/
def qItemA : HistoryItem := mkQueuedItem defaultSettings 0 1 fileA

/-- The job created by the second submission (id 1). -/
def qItemB : HistoryItem := mkQueuedItem defaultSettings 1 2 fileB

/-- The state after submitting `fileA`, then `fileB`, then pressing
start: two queued jobs, the later submission in front. -/
def lifoState : AppState :=
  applyAction (applyAction (applyAction initialState (.submit [fileA] 1)) (.submit [fileB] 2)) .start

/-- The state after the first scan of `lifoState`: one job in flight. -/
def flightState : AppState :=
  applyAction lifoState .scan

/-- A rate-limit error as the external service raises it. -/
def quotaErr : ErrInfo where
  message := "429 You exceeded your current quota"
  status := some 429

/-- A credential-expired error as the external service raises it. -/
def authErr : ErrInfo where
  message := "Requested entity was not found."
  status := none

/-- A failed job holding its original preview data URI. -/
def failedItem : HistoryItem :=
  { qItemA with status := .failed, base64Data := none, generatedImage := "old" }

/-- A store holding one failed job. -/
def failedState : AppState :=
  { initialState with history := [failedItem] }

/-- A rating record over the given shadow intensity and rating value. -/
def sampleRec (n : Nat) (s : ShadowIntensity) (rat : Nat) : RatingRecord where
  id := n
  rating := rat
  timestamp := n
  materialType := some .standard
  shadowIntensity := some s
  shadowAngle := some 135
  backgroundDistance := some 0
  enhancedLighting := some true
  textureIntensity := some 50
  patinaIntensity := some 0
  patinaVariation := some .standard
  aspectRatio := some .r1x1

/-- The spec's example log `[{soft,4},{soft,5},{hard,3}]`. -/
def specExampleLog : List RatingRecord :=
  [sampleRec 0 .soft 4, sampleRec 1 .soft 5, sampleRec 2 .hard 3]

/-- A log whose high-rated shadow intensities are `[soft, hard, hard,
soft]`: a 2-2 tie in which first-occurrence order favours `soft`. -/
def tieLog : List RatingRecord :=
  [sampleRec 0 .soft 4, sampleRec 1 .hard 5, sampleRec 2 .hard 4, sampleRec 3 .soft 5]

/-- A compile input for the determinism witness. -/
def sampleCompileInput : CompileInput where
  materialType := .texture
  shadowAngle := 135
  shadowIntensity := .soft
  backgroundDistance := 0
  enhancedLighting := true
  textureIntensity := 50
  patinaIntensity := 0
  patinaVariation := .standard
  memoryContext := ""

/-- A texture-material job whose snapshot carries `textureIntensity = 0`. -/
def texZeroItem : HistoryItem :=
  { qItemA with materialType := some .texture, textureIntensity := some 0 }

/-! Helper lemmas on the store operations. -/

/-- `find?` returns the first element satisfying the predicate. -/
theorem find?_first {α : Type} (p : α → Bool) :
    ∀ (pre : List α) (j : α) (post : List α),
      (∀ i ∈ pre, p i = false) → p j = true →
      (pre ++ j :: post).find? p = some j
  | [], j, post, _, hj => by
      simpa using List.find?_cons_of_pos post hj
  | a :: pre, j, post, hpre, hj => by
      have ha : ¬ p a = true := by
        simp [hpre a (List.mem_cons_self a pre)]
      rw [List.cons_append, List.find?_cons_of_neg _ ha]
      exact find?_first p pre j post (fun i hi => hpre i (List.mem_cons_of_mem a hi)) hj

/-- `markById` keeps the id column of the store unchanged when the update
function keeps ids. -/
theorem markById_map_id (h : List HistoryItem) (id : Nat)
    (f : HistoryItem → HistoryItem) (hf : ∀ i, (f i).id = i.id) :
    (markById h id f).map HistoryItem.id = h.map HistoryItem.id := by
  unfold markById
  rw [List.map_map]
  refine List.map_congr_left fun i _ => ?_
  by_cases hb : i.id = id <;> simp [hb, hf i]

/-- An item with a different id survives `markById` untouched. -/
theorem mem_markById_of_ne {h : List HistoryItem} {id : Nat}
    {f : HistoryItem → HistoryItem} {i : HistoryItem}
    (hi : i ∈ h) (hne : i.id ≠ id) : i ∈ markById h id f := by
  unfold markById
  refine List.mem_map.mpr ⟨i, hi, ?_⟩
  simp [hne]

/-- Every member of `markById h id f` is an untouched old item or the
image under `f` of an old item carrying the id. -/
theorem mem_markById {h : List HistoryItem} {id : Nat}
    {f : HistoryItem → HistoryItem} {j : HistoryItem}
    (hj : j ∈ markById h id f) :
    ∃ i ∈ h, (i.id = id ∧ j = f i) ∨ (i.id ≠ id ∧ j = i) := by
  unfold markById at hj
  obtain ⟨i, hi, hji⟩ := List.mem_map.mp hj
  refine ⟨i, hi, ?_⟩
  by_cases hb : i.id = id
  · refine Or.inl ⟨hb, ?_⟩
    simp only [hb, beq_self_eq_true, if_true] at hji
    exact hji.symm
  · refine Or.inr ⟨hb, ?_⟩
    simp only [beq_eq_false_iff_ne.mpr hb, if_false] at hji
    exact hji.symm

/-- The ids of a built batch are the consecutive range from the id
supply. -/
theorem buildItems_map_id (s : Settings) (now : Nat) :
    ∀ (fs : List UploadFile) (k : Nat),
      (buildItems s now k fs).map HistoryItem.id = List.range' k fs.length
  | [], _ => rfl
  | f :: fs, k => by
      simp only [buildItems, List.map_cons, List.length_cons, List.range'_succ,
        List.cons.injEq]
      exact ⟨rfl, buildItems_map_id s now fs (k + 1)⟩

/-- Every item of a built batch is queued. -/
theorem mem_buildItems_status (s : Settings) (now : Nat) :
    ∀ {fs : List UploadFile} {k : Nat} {j : HistoryItem},
      j ∈ buildItems s now k fs → j.status = .queued
  | [], _, _, hj => by simp [buildItems] at hj
  | f :: fs, k, j, hj => by
      rcases (List.mem_cons).mp hj with h | h
      · subst h; rfl
      · exact mem_buildItems_status s now h

/-- Every id of a built batch lies in the allotted range. -/
theorem mem_buildItems_id (s : Settings) (now : Nat) {fs : List UploadFile}
    {k : Nat} {j : HistoryItem} (hj : j ∈ buildItems s now k fs) :
    k ≤ j.id ∧ j.id < k + fs.length := by
  have : j.id ∈ (buildItems s now k fs).map HistoryItem.id :=
    List.mem_map_of_mem _ hj
  rw [buildItems_map_id] at this
  exact List.mem_range'_1.mp this

/-- A list of equal values without duplicates has at most one element. -/
theorem length_le_one_of_allEq {l : List Nat} {p : Nat}
    (hall : ∀ x ∈ l, x = p) (hnd : l.Nodup) : l.length ≤ 1 := by
  match l, hnd with
  | [], _ => simp
  | [a], _ => simp
  | a :: b :: t, hnd =>
      exfalso
      have ha := hall a (List.mem_cons_self _ _)
      have hb := hall b (List.mem_cons_of_mem a (List.mem_cons_self _ _))
      have : a ∉ b :: t := (List.nodup_cons.mp hnd).1
      exact this (ha ▸ hb ▸ List.mem_cons_self b t)

/-- Under the store invariant at most one job is `generating`. -/
theorem generatingCount_le_one {h : List HistoryItem} {pid : Option Nat}
    {nid : Nat} (hInv : StoreInv h pid nid) : generatingCount h ≤ 1 := by
  obtain ⟨h1, h2, -⟩ := hInv
  unfold generatingCount
  cases hp : pid with
  | none =>
      have : h.filter (fun i => i.status == Status.generating) = [] := by
        rw [List.filter_eq_nil_iff]
        intro i hi hgen
        have := h2 i hi (by simpa using hgen)
        simp [hp] at this
      simp [this]
  | some p =>
      have hsub : ((h.filter fun i => i.status == Status.generating).map HistoryItem.id).Sublist
          (h.map HistoryItem.id) :=
        (List.filter_sublist h).map _
      have hnd := hsub.nodup h1
      have hall : ∀ x ∈ (h.filter fun i => i.status == Status.generating).map HistoryItem.id, x = p := by
        intro x hx
        obtain ⟨i, hi, rfl⟩ := List.mem_map.mp hx
        have hgen : i.status = .generating := by simpa using List.of_mem_filter hi
        have := h2 i (List.mem_of_mem_filter hi) hgen
        rw [hp] at this
        exact (Option.some_injective _ this).symm
      have := length_le_one_of_allEq hall hnd
      rwa [List.length_map] at this

/-- The store invariant only depends on the history, the single-flight
marker and the id supply; mapping an id- and generating-preserving
function over the history preserves it. -/
theorem storeInv_map {h : List HistoryItem} {pid : Option Nat} {nid : Nat}
    (g : HistoryItem → HistoryItem)
    (hid : ∀ i, (g i).id = i.id)
    (hgen : ∀ i, (g i).status = .generating → i.status = .generating)
    (hInv : StoreInv h pid nid) : StoreInv (h.map g) pid nid := by
  obtain ⟨h1, h2, h3⟩ := hInv
  refine ⟨?_, ?_, ?_⟩
  · have : (h.map g).map HistoryItem.id = h.map HistoryItem.id := by
      rw [List.map_map]
      exact List.map_congr_left fun i _ => hid i
    rw [this]; exact h1
  · intro j hj hgenj
    obtain ⟨i, hi, rfl⟩ := List.mem_map.mp hj
    rw [hid i]
    exact h2 i hi (hgen i hgenj)
  · intro j hj
    obtain ⟨i, hi, rfl⟩ := List.mem_map.mp hj
    rw [hid i]
    exact h3 i hi

/-- A successful submission preserves the store invariant: the prepended
batch carries fresh, distinct, queued ids. -/
theorem storeInv_processUploadedFiles {st : AppState} (files : List UploadFile)
    (now : Nat) (hInv : StoreInv st.history st.processingId st.nextId) :
    StoreInv (processUploadedFiles st files now).history
      (processUploadedFiles st files now).processingId
      (processUploadedFiles st files now).nextId := by
  obtain ⟨h1, h2, h3⟩ := hInv
  unfold processUploadedFiles
  by_cases h0 : ((files.filter isValidFile).length == 0) = true
  · rw [if_pos h0]
    exact ⟨h1, h2, h3⟩
  · rw [if_neg h0]
    by_cases hcap : activeCount st.history + (files.filter isValidFile).length > MAX_QUEUE_SIZE
    · rw [if_pos hcap]
      exact ⟨h1, h2, h3⟩
    · rw [if_neg hcap]
      refine ⟨?_, ?_, ?_⟩
      · rw [List.map_append, buildItems_map_id]
        rw [List.nodup_append]
        refine ⟨List.nodup_range' _ _, h1, ?_⟩
        intro a ha hb
        have ha' := (List.mem_range'_1.mp ha).1
        obtain ⟨i, hi, rfl⟩ := List.mem_map.mp hb
        exact absurd (h3 i hi) (Nat.not_lt.mpr ha')
      · intro i hi hgen
        rcases List.mem_append.mp hi with hnew | hold
        · exact absurd (mem_buildItems_status st.settings now hnew) (by rw [hgen]; simp)
        · exact h2 i hold hgen
      · intro i hi
        rcases List.mem_append.mp hi with hnew | hold
        · exact (mem_buildItems_id st.settings now hnew).2
        · exact Nat.lt_of_lt_of_le (h3 i hold) (Nat.le_add_right _ _)

/-- The ids of `markById` form the old id column when the update keeps
ids; stated for the two update functions used by the controller. -/
theorem storeInv_markById_finish {h : List HistoryItem} {p : Nat} {nid : Nat}
    (f : HistoryItem → HistoryItem)
    (hfid : ∀ i, (f i).id = i.id)
    (hfst : ∀ i, (f i).status ≠ .generating)
    (hInv : StoreInv h (some p) nid) :
    StoreInv (markById h p f) none nid := by
  obtain ⟨h1, h2, h3⟩ := hInv
  refine ⟨?_, ?_, ?_⟩
  · rw [markById_map_id h p f hfid]
    exact h1
  · intro j hj hgen
    obtain ⟨i, hi, hcase⟩ := mem_markById hj
    rcases hcase with ⟨-, rfl⟩ | ⟨hne, heq⟩
    · exact absurd hgen (hfst i)
    · rw [heq] at hgen
      exact absurd (Option.some_injective _ (h2 i hi hgen)).symm hne
  · intro j hj
    obtain ⟨i, hi, hcase⟩ := mem_markById hj
    rcases hcase with ⟨-, rfl⟩ | ⟨-, heq⟩
    · rw [hfid i]; exact h3 i hi
    · rw [heq]; exact h3 i hi

/-- `scanStep` on a paused queue does nothing. -/
theorem scanStep_of_paused {st : AppState} (h : st.isQueueRunning = false) :
    scanStep st = st := by
  unfold scanStep
  rw [h]
  rfl

/-- `scanStep` with a job in flight does nothing. -/
theorem scanStep_of_inflight {st : AppState} {p : Nat}
    (hrun : st.isQueueRunning = true) (h : st.processingId = some p) :
    scanStep st = st := by
  unfold scanStep
  rw [hrun, h]
  rfl

/-- `scanStep` with nothing queued drops the run flag (idle-exit). -/
theorem scanStep_idle {st : AppState} (hrun : st.isQueueRunning = true)
    (hfree : st.processingId = none) (hfq : findQueued st.history = none) :
    scanStep st = { st with isQueueRunning := false } := by
  unfold scanStep
  rw [hrun, hfree, hfq]
  rfl

/-- `scanStep` takes the found queued job in flight. -/
theorem scanStep_dispatch {st : AppState} {j : HistoryItem}
    (hrun : st.isQueueRunning = true) (hfree : st.processingId = none)
    (hfq : findQueued st.history = some j) :
    scanStep st = { st with
      processingId := some j.id
      history := markById st.history j.id fun i => { i with status := .generating } } := by
  unfold scanStep
  rw [hrun, hfree, hfq]
  rfl

/-- A dispatch outcome with no job in flight is dropped. -/
theorem applyAction_fail_none (st : AppState) (e : ErrInfo)
    (hp : st.processingId = none) : applyAction st (.fail e) = st := by
  unfold applyAction
  rw [hp]

/-- A failure outcome lands on the job in flight. -/
theorem applyAction_fail_some (st : AppState) (e : ErrInfo) (p : Nat)
    (hp : st.processingId = some p) :
    applyAction st (.fail e) = (finishFailure st p e).1 := by
  unfold applyAction
  rw [hp]

/-- A success outcome with no job in flight is dropped. -/
theorem applyAction_succeed_none (st : AppState) (r : GenResult)
    (hp : st.processingId = none) : applyAction st (.succeed r) = st := by
  unfold applyAction
  rw [hp]

/-- A success outcome lands on the job in flight. -/
theorem applyAction_succeed_some (st : AppState) (r : GenResult) (p : Nat)
    (hp : st.processingId = some p) :
    applyAction st (.succeed r) = finishSuccess st p r := by
  unfold applyAction
  rw [hp]

/-- Whatever the error class, the failure path marks the job failed,
purges its bytes and releases the single-flight marker; the id supply is
untouched. -/
theorem finishFailure_fst (st : AppState) (id : Nat) (e : ErrInfo) :
    ((finishFailure st id e).1).history =
      markById st.history id (fun i => { i with status := Status.failed, base64Data := none }) ∧
    ((finishFailure st id e).1).processingId = none ∧
    ((finishFailure st id e).1).nextId = st.nextId := by
  simp only [finishFailure]
  split
  · exact ⟨rfl, rfl, rfl⟩
  · split
    · exact ⟨rfl, rfl, rfl⟩
    · exact ⟨rfl, rfl, rfl⟩

/-- Every action of the system preserves the store invariant. -/
theorem storeInv_applyAction (st : AppState) (a : Action)
    (hInv : StoreInv st.history st.processingId st.nextId) :
    StoreInv (applyAction st a).history (applyAction st a).processingId
      (applyAction st a).nextId := by
  obtain ⟨h1, h2, h3⟩ := hInv
  cases a with
  | submit files now => exact storeInv_processUploadedFiles files now ⟨h1, h2, h3⟩
  | rate id rating now =>
      have hmap : StoreInv
          (st.history.map fun i => if i.id == id then { i with rating := some rating } else i)
          st.processingId st.nextId := by
        refine storeInv_map _ ?_ ?_ ⟨h1, h2, h3⟩
        · intro i; by_cases hb : i.id = id <;> simp [hb]
        · intro i hgen; by_cases hb : i.id = id <;> simpa [hb] using hgen
      show StoreInv (handleRate st id rating now).history
        (handleRate st id rating now).processingId (handleRate st id rating now).nextId
      unfold handleRate
      cases st.history.find? (fun i => i.id == id) with
      | none => exact hmap
      | some item => exact hmap
  | regenerate id now =>
      show StoreInv (handleRegenerate st id now).history
        (handleRegenerate st id now).processingId (handleRegenerate st id now).nextId
      unfold handleRegenerate
      refine storeInv_map _ ?_ ?_ ⟨h1, h2, h3⟩
      · intro i; by_cases hb : i.id = id <;> simp [hb, regenItem]
      · intro i hgen
        by_cases hb : i.id = id
        · exact absurd hgen (by simp [hb, regenItem])
        · simpa [hb] using hgen
  | clearHistory =>
      exact ⟨List.nodup_nil, fun i hi _ => absurd hi (List.not_mem_nil i),
        fun i hi => absurd hi (List.not_mem_nil i)⟩
  | start => exact ⟨h1, h2, h3⟩
  | pause => exact ⟨h1, h2, h3⟩
  | keyCheck b => exact ⟨h1, h2, h3⟩
  | setSettings s => exact ⟨h1, h2, h3⟩
  | scan =>
      show StoreInv (scanStep st).history (scanStep st).processingId (scanStep st).nextId
      by_cases hrun : st.isQueueRunning = true
      · cases hps : st.processingId with
        | some p =>
            rw [scanStep_of_inflight hrun hps]
            exact ⟨h1, h2, h3⟩
        | none =>
            cases hfq : findQueued st.history with
            | none =>
                rw [scanStep_idle hrun hps hfq]
                exact ⟨h1, h2, h3⟩
            | some item =>
                rw [scanStep_dispatch hrun hps hfq]
                refine ⟨?_, ?_, ?_⟩
                · rw [markById_map_id st.history item.id
                    (fun i => { i with status := Status.generating }) (fun i => rfl)]
                  exact h1
                · intro j hj hgen
                  obtain ⟨i, hi, hcase⟩ := mem_markById hj
                  rcases hcase with ⟨hbe, rfl⟩ | ⟨hne, heq⟩
                  · exact congrArg some hbe.symm
                  · rw [heq] at hgen
                    exact absurd (h2 i hi hgen) (by simp [hps])
                · intro j hj
                  obtain ⟨i, hi, hcase⟩ := mem_markById hj
                  rcases hcase with ⟨-, rfl⟩ | ⟨-, heq⟩
                  · exact h3 i hi
                  · rw [heq]; exact h3 i hi
      · rw [scanStep_of_paused (by simpa using hrun)]
        exact ⟨h1, h2, h3⟩
  | succeed r =>
      cases hp : st.processingId with
      | none =>
          rw [applyAction_succeed_none st r hp]
          exact ⟨h1, h2, h3⟩
      | some p =>
          rw [applyAction_succeed_some st r p hp]
          exact storeInv_markById_finish
            (fun i => { i with
              generatedImage := "data:" ++ r.mimeType ++ ";base64," ++ r.imageData
              status := .completed, base64Data := none })
            (fun i => rfl) (fun i => by simp) ⟨h1, hp ▸ h2, h3⟩
  | fail e =>
      cases hp : st.processingId with
      | none =>
          rw [applyAction_fail_none st e hp]
          exact ⟨h1, h2, h3⟩
      | some p =>
          rw [applyAction_fail_some st e p hp]
          obtain ⟨hh, hpid, hnid⟩ := finishFailure_fst st p e
          rw [hh, hpid, hnid]
          exact storeInv_markById_finish
            (fun i => { i with status := Status.failed, base64Data := none })
            (fun i => rfl) (fun i => by simp) ⟨h1, hp ▸ h2, h3⟩

/-- Every reachable state satisfies the store invariant. -/
theorem storeInv_reachable {st : AppState} (h : Reachable st) :
    StoreInv st.history st.processingId st.nextId := by
  induction h with
  | init => exact ⟨by simp [initialState], by simp [initialState], by simp [initialState]⟩
  | step _ a ih => exact storeInv_applyAction _ a ih

/-! Helper lemmas on the mode computation. -/

/-- The invariant of the `getMode` loop over the processed prefix: the
counts are exact, the running maximum bounds every count, it is zero on
the empty prefix, and on a non-empty prefix it is attained by the
running mode, which occurs in the prefix. -/
def ModeInv [DecidableEq α] [BEq α] [LawfulBEq α] (processed : List α) (s : ModeState α) : Prop :=
  (∀ y, s.counts y = processed.count y) ∧
  (∀ y, processed.count y ≤ s.maxCount) ∧
  (processed = [] → s.maxCount = 0) ∧
  (processed ≠ [] → s.maxCount = processed.count s.mode ∧ s.mode ∈ processed)

/-- One `modeStep` extends the loop invariant by one element. -/
theorem modeStep_inv [DecidableEq α] [BEq α] [LawfulBEq α] {processed : List α} {s : ModeState α}
    (hInv : ModeInv processed s) (x : α) :
    ModeInv (processed ++ [x]) (modeStep s x) := by
  obtain ⟨hc, hm, hz, hn⟩ := hInv
  have hcount : ∀ y, (processed ++ [x]).count y =
      processed.count y + if y = x then 1 else 0 := by
    intro y
    rw [List.count_append]
    by_cases hy : y = x <;> simp [hy, List.count_singleton', beq_iff_eq]
  unfold modeStep
  by_cases hlt : s.maxCount < s.counts x + 1
  · rw [if_pos hlt]
    refine ⟨?_, ?_, ?_, ?_⟩
    · intro y
      by_cases hy : y = x <;> simp [hy, hcount, hc]
    · intro y
      rw [hcount]
      by_cases hy : y = x
      · simp [hy, hc]
      · simp only [hy, if_false, Nat.add_zero]
        exact Nat.le_of_lt (Nat.lt_of_le_of_lt (hm y) hlt)
    · intro habs
      exact absurd habs (by simp)
    · intro _
      constructor
      · show s.counts x + 1 = (processed ++ [x]).count x
        rw [hcount, hc]
        simp
      · show x ∈ processed ++ [x]
        simp
  · rw [if_neg hlt]
    have hle : s.counts x + 1 ≤ s.maxCount := Nat.not_lt.mp hlt
    refine ⟨?_, ?_, ?_, ?_⟩
    · intro y
      by_cases hy : y = x <;> simp [hy, hcount, hc]
    · intro y
      rw [hcount]
      by_cases hy : y = x
      · simpa [hy, hc] using hle
      · simp only [hy, if_false, Nat.add_zero]
        exact hm y
    · intro habs
      exact absurd habs (by simp)
    · intro _
      by_cases hp : processed = []
      · exfalso
        have : s.maxCount = 0 := hz hp
        rw [this] at hle
        exact absurd hle (by simp)
      · obtain ⟨hmax, hmem⟩ := hn hp
        have hmode_ne : s.mode ≠ x := by
          intro habs
          rw [habs] at hmax
          rw [hc x] at hle
          rw [hmax] at hle
          exact absurd hle (by simp)
        constructor
        · rw [hcount, if_neg hmode_ne, Nat.add_zero]
          exact hmax
        · exact List.mem_append_left _ hmem

/-- The fold of `modeStep` carries the loop invariant. -/
theorem foldl_modeInv [DecidableEq α] [BEq α] [LawfulBEq α] :
    ∀ (rest processed : List α) (s : ModeState α),
      ModeInv processed s → ModeInv (processed ++ rest) (rest.foldl modeStep s)
  | [], processed, s, hInv => by simpa using hInv
  | x :: rest, processed, s, hInv => by
      have := foldl_modeInv rest (processed ++ [x]) (modeStep s x) (modeStep_inv hInv x)
      simpa using this

/-- `getMode` returns an element of the list whose multiplicity is
maximal. -/
theorem getMode_spec [DecidableEq α] [BEq α] [LawfulBEq α] (l : List α) (m : α)
    (h : getMode l = some m) : m ∈ l ∧ ∀ y, l.count y ≤ l.count m := by
  match l, h with
  | x :: xs, h =>
      have hinit : ModeInv ([] : List α) ⟨fun _ => 0, 0, x⟩ :=
        ⟨fun y => by simp, fun y => by simp, fun _ => rfl, fun habs => absurd rfl habs⟩
      have hfin := foldl_modeInv (x :: xs) [] ⟨fun _ => 0, 0, x⟩ hinit
      rw [List.nil_append] at hfin
      obtain ⟨-, hmax, -, hne⟩ := hfin
      obtain ⟨hattained, hmem⟩ := hne (by simp)
      have hm : ((x :: xs).foldl modeStep ⟨fun _ => 0, 0, x⟩).mode = m := by
        have := h
        unfold getMode at this
        exact Option.some_injective _ this
      rw [hm] at hattained hmem
      refine ⟨hmem, fun y => ?_⟩
      rw [← hattained]
      exact hmax y

/-! Helper lemmas on the rating-log upsert. -/

/-- Recursive characterization of the append-or-replace write. -/
theorem upsertRating_cons (r : RatingRecord) (l : List RatingRecord)
    (rec : RatingRecord) :
    upsertRating (r :: l) rec =
      if r.id == rec.id then rec :: l else r :: upsertRating l rec := by
  unfold upsertRating
  rw [List.findIdx?_cons]
  by_cases hb : (r.id == rec.id) = true
  · rw [if_pos hb, if_pos hb]
    rfl
  · rw [if_neg hb, if_neg hb, List.findIdx?_succ]
    cases List.findIdx? (fun r' => r'.id == rec.id) l with
    | none => rfl
    | some i => rfl

/-- Writing a record whose id is not looked up commutes with filtering
for another id. -/
theorem filter_upsertRating_other (rec : RatingRecord) (x : Nat)
    (hne : (rec.id == x) = false) :
    ∀ l : List RatingRecord,
      (upsertRating l rec).filter (fun r => r.id == x) =
        l.filter (fun r => r.id == x)
  | [] => by
      show ([rec].filter fun r => r.id == x) = []
      simp [List.filter, hne]
  | r :: l => by
      rw [upsertRating_cons]
      by_cases hb : (r.id == rec.id) = true
      · rw [if_pos hb]
        have hrx : (r.id == x) = false := by
          have h1 : r.id = rec.id := by simpa using hb
          have h2 : rec.id ≠ x := by simpa using hne
          simpa [h1] using h2
        rw [List.filter_cons, List.filter_cons]
        rw [if_neg (by simp [hne]), if_neg (by simp [hrx])]
      · rw [if_neg hb]
        rw [List.filter_cons, List.filter_cons]
        by_cases hrx : (r.id == x) = true
        · rw [if_pos hrx, if_pos hrx, filter_upsertRating_other rec x hne l]
        · rw [if_neg hrx, if_neg hrx]
          exact filter_upsertRating_other rec x hne l

/-- After writing a record, the log holds exactly that record under its
id, provided the log held at most one before. -/
theorem filter_upsertRating_self (rec : RatingRecord) :
    ∀ l : List RatingRecord,
      ((l.filter fun r => r.id == rec.id).length ≤ 1) →
      (upsertRating l rec).filter (fun r => r.id == rec.id) = [rec]
  | [], _ => by
      show ([rec].filter fun r => r.id == rec.id) = [rec]
      simp [List.filter]
  | r :: l, h => by
      rw [upsertRating_cons]
      by_cases hb : (r.id == rec.id) = true
      · rw [if_pos hb]
        have hl : (l.filter fun r' => r'.id == rec.id) = [] := by
          rw [List.filter_cons, if_pos hb] at h
          simp only [List.length_cons] at h
          exact List.eq_nil_of_length_eq_zero (Nat.le_zero.mp (Nat.le_of_succ_le_succ h))
        rw [List.filter_cons, if_pos (by simp), hl]
      · rw [if_neg hb]
        rw [List.filter_cons, if_neg hb]
        refine filter_upsertRating_self rec l ?_
        rw [List.filter_cons, if_neg hb] at h
        exact h

/-- The append-or-replace write keeps at most one record per id. -/
theorem atMostOne_upsertRating {l : List RatingRecord} (rec : RatingRecord)
    (h : AtMostOnePerId l) : AtMostOnePerId (upsertRating l rec) := by
  intro x
  by_cases hx : (rec.id == x) = true
  · have hid : rec.id = x := by simpa using hx
    rw [← hid]
    rw [filter_upsertRating_self rec l (hid ▸ h x)]
    simp
  · rw [filter_upsertRating_other rec x (by simpa using hx)]
    exact h x

/-- Replaying any sequence of writes from the empty log keeps at most
one record per id. -/
theorem atMostOne_foldl_upsertRating :
    ∀ (seq init : List RatingRecord), AtMostOnePerId init →
      AtMostOnePerId (seq.foldl upsertRating init)
  | [], _, h => h
  | rec :: seq, init, h =>
      atMostOne_foldl_upsertRating seq (upsertRating init rec)
        (atMostOne_upsertRating rec h)

/-- A record id absent from the log is appended at the end. -/
theorem upsertRating_append_of_absent (rec : RatingRecord) :
    ∀ l : List RatingRecord,
      l.find? (fun r => r.id == rec.id) = none →
      upsertRating l rec = l ++ [rec]
  | [], _ => rfl
  | r :: l, h => by
      have hall := List.find?_eq_none.mp h
      have hb : ¬ (r.id == rec.id) = true := hall r (List.mem_cons_self r l)
      rw [upsertRating_cons, if_neg hb]
      rw [upsertRating_append_of_absent rec l
        (List.find?_eq_none.mpr fun x hx => hall x (List.mem_cons_of_mem r hx))]
      rfl

/-! The frozen claims. -/

/-- C1 (amended): whenever the run flag is on and no job is in flight,
the queue controller selects the first job with status `queued` in store
order and dispatches it; because `processUploadedFiles` prepends each
accepted batch, that job belongs to the most recent submission still
holding queued jobs (last-in-first-out), not to the earliest one. -/
theorem scan_selects_first_queued_lifo
    (st : AppState) (pre post : List HistoryItem) (j : HistoryItem)
    (st' : AppState) (files : List UploadFile) (now : Nat)
    (hrun : st.isQueueRunning = true) (hfree : st.processingId = none)
    (hhist : st.history = pre ++ j :: post)
    (hpre : ∀ i ∈ pre, (i.status == Status.queued) = false)
    (hj : (j.status == Status.queued) = true)
    (hne : (files.filter isValidFile).length ≠ 0)
    (hcap : activeCount st'.history + (files.filter isValidFile).length ≤ MAX_QUEUE_SIZE) :
    (scanStep st).processingId = some j.id ∧
    (scanStep st).history =
      markById st.history j.id (fun i => { i with status := Status.generating }) ∧
    (processUploadedFiles st' files now).history =
      buildItems st'.settings now st'.nextId (files.filter isValidFile) ++ st'.history := by
  have hfq : findQueued st.history = some j := by
    rw [hhist]
    exact find?_first _ pre j post hpre hj
  rw [scanStep_dispatch hrun hfree hfq]
  refine ⟨rfl, rfl, ?_⟩
  unfold processUploadedFiles
  rw [if_neg (by simpa using hne), if_neg (Nat.not_lt.mpr hcap)]

/-- Witness for C1 at the two-submission scenario: the second submission
(job id 1) is dispatched while the earlier job id 0 stays queued. -/
theorem scan_selects_first_queued_lifo_witness :
    (scanStep lifoState).processingId = some qItemB.id ∧
    (scanStep lifoState).history =
      markById lifoState.history qItemB.id (fun i => { i with status := Status.generating }) ∧
    (processUploadedFiles lifoState [fileB] 9).history =
      buildItems lifoState.settings 9 lifoState.nextId ([fileB].filter isValidFile) ++ lifoState.history :=
  scan_selects_first_queued_lifo lifoState [] [qItemA] qItemB lifoState [fileB] 9
    rfl rfl rfl (by simp) (by decide) (by decide) (by decide)

/-- Counterexample to C1 as stated: in the reachable state with job 0
submitted before job 1 and both queued, the scan takes job 1 (the later
submission) in flight and leaves the earliest-submitted job 0 queued. -/
theorem scan_fifo_counterexample :
    lifoState.history.map (fun i => (i.id, i.status)) =
      [(1, Status.queued), (0, Status.queued)] ∧
    (scanStep lifoState).processingId = some 1 ∧
    (scanStep lifoState).history.map (fun i => (i.id, i.status)) =
      [(1, Status.generating), (0, Status.queued)] := by
  refine ⟨by decide, by decide, by decide⟩

/-- C2: in every state reachable by any sequence of submissions,
ratings, resubmissions, pauses, starts, clears, settings and credential
changes, scans and dispatch outcomes, at most one job in the store has
status `generating`. -/
theorem single_flight_invariant (st : AppState) (h : Reachable st) :
    generatingCount st.history ≤ 1 :=
  generatingCount_le_one (storeInv_reachable h)

/-- Witness for C2 at the reachable state with a job in flight. -/
theorem single_flight_invariant_witness :
    generatingCount (applyAction lifoState Action.scan).history ≤ 1 :=
  single_flight_invariant _
    (Reachable.step
      (Reachable.step
        (Reachable.step (Reachable.step Reachable.init (.submit [fileA] 1))
          (.submit [fileB] 2))
        .start)
      .scan)

/-- C3: submitting a batch of valid files that would push the
queued-plus-generating count over the ceiling of 30 rejects the whole
batch: the banner shows the capacity error and the state — in
particular the store — is otherwise unchanged. -/
theorem capacity_overflow_rejects_batch (st : AppState) (files : List UploadFile)
    (now : Nat)
    (hval : ∀ f ∈ files, isValidFile f = true) (hne : files ≠ [])
    (hcap : MAX_QUEUE_SIZE < activeCount st.history + files.length) :
    processUploadedFiles st files now =
      { st with errorMsg := some (capacityMsg (activeCount st.history)) } := by
  have hfilter : files.filter isValidFile = files := List.filter_eq_self.mpr hval
  unfold processUploadedFiles
  rw [hfilter]
  have hlen : ¬ (files.length == 0) = true := by
    cases files with
    | nil => exact absurd rfl hne
    | cons a l => simp
  rw [if_neg hlen, if_pos hcap]

/-- Witness for C3: 31 valid files against the empty store. -/
theorem capacity_overflow_rejects_batch_witness :
    processUploadedFiles initialState (List.replicate 31 fileA) 0 =
      { initialState with errorMsg := some (capacityMsg (activeCount initialState.history)) } :=
  capacity_overflow_rejects_batch initialState (List.replicate 31 fileA) 0
    (by decide) (by decide) (by decide)

/-- C4: on an error the catch block classifies as rate-limited, every
job in the store carrying the in-flight id is marked `failed` (no silent
retry), and the single-flight lock is held for a further 10000 ms — at
least 10 seconds — before the `finally` releases it, so no next queued
job can be dispatched earlier. -/
theorem rate_limit_failure_cooldown (st : AppState) (id : Nat) (e : ErrInfo)
    (hc : classify e = .rateLimited) :
    (∀ j ∈ (finishFailure st id e).1.history, j.id = id → j.status = .failed) ∧
    10000 ≤ (finishFailure st id e).2 := by
  have hauth : isAuthErr e = false := by
    cases ha : isAuthErr e
    · rfl
    · exfalso
      unfold classify at hc
      rw [if_pos ha] at hc
      exact absurd hc (by simp)
  have hrate : isRateLimitErr e = true := by
    cases hr : isRateLimitErr e
    · exfalso
      unfold classify at hc
      rw [if_neg (by simp [hauth]), if_neg (by simp [hr])] at hc
      exact absurd hc (by simp)
    · rfl
  constructor
  · intro j hj hjid
    obtain ⟨hh, -, -⟩ := finishFailure_fst st id e
    rw [hh] at hj
    obtain ⟨i, hi, hcase⟩ := mem_markById hj
    rcases hcase with ⟨-, rfl⟩ | ⟨hne, heq⟩
    · rfl
    · rw [heq] at hjid
      exact absurd hjid hne
  · unfold finishFailure
    rw [if_neg (by simp [hauth]), if_pos hrate]

/-- Witness for C4 at the in-flight scenario state and a quota error. -/
theorem rate_limit_failure_cooldown_witness :
    (∀ j ∈ (finishFailure flightState 1 quotaErr).1.history, j.id = 1 → j.status = .failed) ∧
    10000 ≤ (finishFailure flightState 1 quotaErr).2 :=
  rate_limit_failure_cooldown flightState 1 quotaErr (by decide)

/-- C5: on an error the catch block classifies as credential-expired,
the cached credential flag clears, the expiry banner is surfaced, the
run flag turns off even though other jobs stay in the store untouched,
and a subsequent scan dispatches nothing. -/
theorem auth_failure_pauses_queue (st : AppState) (id : Nat) (e : ErrInfo)
    (hc : classify e = .authExpired) :
    (finishFailure st id e).1.hasKey = false ∧
    (finishFailure st id e).1.errorMsg =
      some "API Key session expired. Please select your key again." ∧
    (finishFailure st id e).1.isQueueRunning = false ∧
    (∀ i ∈ st.history, i.id ≠ id → i ∈ (finishFailure st id e).1.history) ∧
    scanStep (finishFailure st id e).1 = (finishFailure st id e).1 := by
  have hauth : isAuthErr e = true := by
    cases ha : isAuthErr e
    · exfalso
      unfold classify at hc
      rw [if_neg (by simp [ha])] at hc
      cases hr : isRateLimitErr e
      · rw [if_neg (by simp [hr])] at hc
        exact absurd hc (by simp)
      · rw [if_pos hr] at hc
        exact absurd hc (by simp)
    · rfl
  have hfst : (finishFailure st id e).1 =
      { st with
          history := markById st.history id fun i =>
            { i with status := .failed, base64Data := none }
          hasKey := false
          errorMsg := some "API Key session expired. Please select your key again."
          isQueueRunning := false
          processingId := none } := by
    unfold finishFailure
    rw [if_pos hauth]
  rw [hfst]
  refine ⟨rfl, rfl, rfl, ?_, ?_⟩
  · intro i hi hne
    exact mem_markById_of_ne hi hne
  · exact scanStep_of_paused rfl

/-- Witness for C5: the auth error fails the in-flight job while another
job is queued; the queue pauses and the next scan is a no-op. -/
theorem auth_failure_pauses_queue_witness :
    (finishFailure flightState 1 authErr).1.hasKey = false ∧
    (finishFailure flightState 1 authErr).1.errorMsg =
      some "API Key session expired. Please select your key again." ∧
    (finishFailure flightState 1 authErr).1.isQueueRunning = false ∧
    (∀ i ∈ flightState.history, i.id ≠ 1 → i ∈ (finishFailure flightState 1 authErr).1.history) ∧
    scanStep (finishFailure flightState 1 authErr).1 = (finishFailure flightState 1 authErr).1 :=
  auth_failure_pauses_queue flightState 1 authErr (by decide)

/-- C6: resubmitting a failed job puts a job with its id back into the
store with status `queued`, the previous result cleared, the image data
reconstructed from the stored preview data URI (payload after the first
comma, media type parsed from the metadata with `image/png` fallback),
and a configuration snapshot taken from the current global settings;
every other job is left in the store unchanged. -/
theorem regenerate_restamps_current_settings (st : AppState) (id now : Nat)
    (item : HistoryItem) (hmem : item ∈ st.history) (hid : item.id = id)
    (hfail : item.status = .failed) :
    (∃ j ∈ (handleRegenerate st id now).history,
      j.status = .queued ∧
      j.generatedImage = "" ∧
      j.base64Data = (item.originalImage.splitOn ",").get? 1 ∧
      j.mimeType = some ((jsMimeMatch (uriMeta item.originalImage)).getD "image/png") ∧
      j.materialType = some st.settings.materialType ∧
      j.textureIntensity = some st.settings.textureIntensity ∧
      j.patinaIntensity =
        some (if st.settings.isPatinaEnabled then st.settings.patinaIntensity else 0) ∧
      j.patinaVariation = some st.settings.patinaVariation ∧
      j.shadowAngle = some st.settings.shadowAngle ∧
      j.shadowIntensity = some st.settings.shadowIntensity ∧
      j.backgroundDistance = some st.settings.backgroundDistance ∧
      j.aspectRatio = some st.settings.aspectRatio ∧
      j.enhancedLighting = some st.settings.enhancedLighting ∧
      j.id = item.id) ∧
    ∀ i ∈ st.history, i.id ≠ id → i ∈ (handleRegenerate st id now).history := by
  constructor
  · refine ⟨regenItem st.settings now item, ?_, ?_⟩
    · unfold handleRegenerate
      refine List.mem_map.mpr ⟨item, hmem, ?_⟩
      rw [if_pos (by simpa using hid)]
    · exact ⟨rfl, rfl, rfl, rfl, rfl, rfl, rfl, rfl, rfl, rfl, rfl, rfl, rfl, rfl⟩
  · intro i hi hne
    unfold handleRegenerate
    refine List.mem_map.mpr ⟨i, hi, ?_⟩
    rw [if_neg (by simpa using hne)]

/-- Witness for C6 on a concrete failed job. -/
theorem regenerate_restamps_current_settings_witness :
    (∃ j ∈ (handleRegenerate failedState 0 7).history,
      j.status = .queued ∧
      j.generatedImage = "" ∧
      j.base64Data = (failedItem.originalImage.splitOn ",").get? 1 ∧
      j.mimeType = some ((jsMimeMatch (uriMeta failedItem.originalImage)).getD "image/png") ∧
      j.materialType = some failedState.settings.materialType ∧
      j.textureIntensity = some failedState.settings.textureIntensity ∧
      j.patinaIntensity =
        some (if failedState.settings.isPatinaEnabled then failedState.settings.patinaIntensity else 0) ∧
      j.patinaVariation = some failedState.settings.patinaVariation ∧
      j.shadowAngle = some failedState.settings.shadowAngle ∧
      j.shadowIntensity = some failedState.settings.shadowIntensity ∧
      j.backgroundDistance = some failedState.settings.backgroundDistance ∧
      j.aspectRatio = some failedState.settings.aspectRatio ∧
      j.enhancedLighting = some failedState.settings.enhancedLighting ∧
      j.id = failedItem.id) ∧
    ∀ i ∈ failedState.history, i.id ≠ 0 → i ∈ (handleRegenerate failedState 0 7).history :=
  regenerate_restamps_current_settings failedState 0 7 failedItem
    (List.mem_cons_self failedItem []) rfl rfl

/-- C7: replaying any sequence of rate operations from the empty log and
then rating once more leaves at most one record per job id; the id just
rated holds exactly the new record (the second value is final), and an
id without a record gets exactly one appended. -/
theorem rating_log_at_most_one_per_id (seq : List RatingRecord) (rec : RatingRecord) :
    (∀ x : Nat,
      ((upsertRating (seq.foldl upsertRating []) rec).filter fun r => r.id == x).length ≤ 1) ∧
    (upsertRating (seq.foldl upsertRating []) rec).filter (fun r => r.id == rec.id) = [rec] ∧
    ((seq.foldl upsertRating []).find? (fun r => r.id == rec.id) = none →
      upsertRating (seq.foldl upsertRating []) rec = seq.foldl upsertRating [] ++ [rec]) := by
  have hbase : AtMostOnePerId (seq.foldl upsertRating []) :=
    atMostOne_foldl_upsertRating seq [] (fun x => by simp)
  refine ⟨atMostOne_upsertRating rec hbase, ?_, ?_⟩
  · exact filter_upsertRating_self rec _ (hbase rec.id)
  · exact upsertRating_append_of_absent rec _

/-- Witness for C7: rate job 0, rate job 1, then re-rate job 0. -/
theorem rating_log_at_most_one_per_id_witness :
    (∀ x : Nat,
      ((upsertRating ([sampleRec 0 .soft 4, sampleRec 1 .hard 5].foldl upsertRating [])
        (sampleRec 0 .soft 2)).filter fun r => r.id == x).length ≤ 1) ∧
    (upsertRating ([sampleRec 0 .soft 4, sampleRec 1 .hard 5].foldl upsertRating [])
      (sampleRec 0 .soft 2)).filter (fun r => r.id == (sampleRec 0 .soft 2).id) =
      [sampleRec 0 .soft 2] ∧
    (([sampleRec 0 .soft 4, sampleRec 1 .hard 5].foldl upsertRating []).find?
        (fun r => r.id == (sampleRec 0 .soft 2).id) = none →
      upsertRating ([sampleRec 0 .soft 4, sampleRec 1 .hard 5].foldl upsertRating [])
        (sampleRec 0 .soft 2) =
        [sampleRec 0 .soft 4, sampleRec 1 .hard 5].foldl upsertRating [] ++ [sampleRec 0 .soft 2]) :=
  rating_log_at_most_one_per_id [sampleRec 0 .soft 4, sampleRec 1 .hard 5] (sampleRec 0 .soft 2)

/-- A non-empty array always has a mode. -/
theorem getMode_exists [DecidableEq α] {l : List α} (h : l ≠ []) :
    ∃ m, getMode l = some m := by
  cases l with
  | nil => exact absurd rfl h
  | cons x xs => exact ⟨_, rfl⟩

/-- C8 (amended): the profile computation filters the log to records
with rating at least 4 and returns the empty profile (the empty memory
string) exactly when the filtered set is empty; otherwise each
categorical preference field (shadow intensity, material, 45-degree
angle bucket) is a most-frequent value of the filtered set — where a tie
is held by the value that reaches the maximal count first in scan order,
not by first occurrence — and on the spec's example log
`[{soft,4},{soft,5},{hard,3}]` the preferred shadow intensity is
`soft`. -/
theorem profile_filters_and_takes_mode (log : List RatingRecord) :
    (computeProfile log = none ↔ positiveExamples log = []) ∧
    (∀ p, computeProfile log = some p →
      (∃ m, p.preferredShadow = some m ∧
        m ∈ (positiveExamples log).map (fun r => r.shadowIntensity) ∧
        ∀ y, ((positiveExamples log).map fun r => r.shadowIntensity).count y ≤
          ((positiveExamples log).map fun r => r.shadowIntensity).count m) ∧
      (∃ m, p.preferredMaterial = some m ∧
        m ∈ (positiveExamples log).map (fun r => r.materialType) ∧
        ∀ y, ((positiveExamples log).map fun r => r.materialType).count y ≤
          ((positiveExamples log).map fun r => r.materialType).count m) ∧
      (∃ m, p.preferredAngle = some m ∧
        m ∈ (positiveExamples log).map (fun r => angleBucket r.shadowAngle) ∧
        ∀ y, ((positiveExamples log).map fun r => angleBucket r.shadowAngle).count y ≤
          ((positiveExamples log).map fun r => angleBucket r.shadowAngle).count m)) ∧
    (computeProfile specExampleLog).map PreferenceProfile.preferredShadow =
      some (some (some .soft)) := by
  refine ⟨?_, ?_, by decide⟩
  · unfold computeProfile
    by_cases h0 : ((positiveExamples log).length == 0) = true
    · rw [if_pos h0]
      have hnil : positiveExamples log = [] :=
        List.eq_nil_of_length_eq_zero (by simpa using h0)
      simp [hnil]
    · rw [if_neg h0]
      constructor
      · intro habs
        exact absurd habs (by simp)
      · intro hnil
        exact absurd (by simp [hnil]) h0
  · intro p hp
    have h0 : ¬ ((positiveExamples log).length == 0) = true := by
      intro h0
      unfold computeProfile at hp
      rw [if_pos h0] at hp
      exact absurd hp (by simp)
    unfold computeProfile at hp
    rw [if_neg h0] at hp
    have hpeq := Option.some_injective _ hp
    subst hpeq
    have hpos : positiveExamples log ≠ [] := by
      intro hnil
      exact h0 (by simp [hnil])
    refine ⟨?_, ?_, ?_⟩
    · obtain ⟨m, hm⟩ := getMode_exists
        (show (positiveExamples log).map (fun r => r.shadowIntensity) ≠ [] by
          simpa using hpos)
      obtain ⟨hmem, hmax⟩ := getMode_spec _ m hm
      exact ⟨m, hm, hmem, hmax⟩
    · obtain ⟨m, hm⟩ := getMode_exists
        (show (positiveExamples log).map (fun r => r.materialType) ≠ [] by
          simpa using hpos)
      obtain ⟨hmem, hmax⟩ := getMode_spec _ m hm
      exact ⟨m, hm, hmem, hmax⟩
    · obtain ⟨m, hm⟩ := getMode_exists
        (show (positiveExamples log).map (fun r => angleBucket r.shadowAngle) ≠ [] by
          simpa using hpos)
      obtain ⟨hmem, hmax⟩ := getMode_spec _ m hm
      exact ⟨m, hm, hmem, hmax⟩

/-- Counterexample to C8 as stated: on the high-rated shadow list
`[soft, hard, hard, soft]` the counts tie at two, the first-occurrence
tie-break demanded by the claim yields `soft`, but the code's mode
(first value to reach the maximal count) yields `hard`. -/
theorem mode_tiebreak_counterexample :
    ((positiveExamples tieLog).map fun r => r.shadowIntensity).count
        (some ShadowIntensity.soft) =
      ((positiveExamples tieLog).map fun r => r.shadowIntensity).count
        (some ShadowIntensity.hard) ∧
    modeFirstOcc ((positiveExamples tieLog).map fun r => r.shadowIntensity) =
      some (some ShadowIntensity.soft) ∧
    (computeProfile tieLog).map PreferenceProfile.preferredShadow =
      some (some (some ShadowIntensity.hard)) ∧
    (modeFirstOcc ((positiveExamples tieLog).map fun r => r.shadowIntensity)).map some ≠
      (computeProfile tieLog).map PreferenceProfile.preferredShadow := by
  exact ⟨by decide, by decide, by decide, by decide⟩

/-- C9: the directive compiler is a pure function of its inputs — two
calls with equal configuration and preference-profile context produce
equal request payloads (and, a fortiori, equal prompt text). -/
theorem compile_referentially_transparent (c c' : CompileInput) (h : c = c') :
    compile c = compile c' := by
  rw [h]

/-- Witness for C9 at a concrete compile input. -/
theorem compile_referentially_transparent_witness :
    compile sampleCompileInput = compile sampleCompileInput :=
  compile_referentially_transparent sampleCompileInput sampleCompileInput rfl

/-- C10: at the dispatch boundary a snapshot value `textureIntensity =
0` is replaced by the default 50 (`item.textureIntensity || 50`), so the
request payload built for a texture job with intensity 0 is identical to
the one built for the same job with intensity 50. -/
theorem texture_intensity_zero_dispatches_as_fifty (item : HistoryItem)
    (memoryContext : String)
    (hmat : item.materialType = some .texture)
    (htex : item.textureIntensity = some 0) :
    jsOrNat item.textureIntensity 50 = 50 ∧
    dispatchRequest item memoryContext =
      dispatchRequest { item with textureIntensity := some 50 } memoryContext := by
  cases item
  simp only at htex
  subst htex
  exact ⟨rfl, rfl⟩

/-- Witness for C10 at a concrete texture job with intensity 0. -/
theorem texture_intensity_zero_dispatches_as_fifty_witness :
    jsOrNat texZeroItem.textureIntensity 50 = 50 ∧
    dispatchRequest texZeroItem "" =
      dispatchRequest { texZeroItem with textureIntensity := some 50 } "" :=
  texture_intensity_zero_dispatches_as_fifty texZeroItem "" rfl rfl

end ProShot
